import Mathlib

/-!
Shallow embedding of the authentication layer of this repository
(src/src/context/AuthContext.tsx): the AuthContext provider operations
(checkAuth bootstrap, login, register, logout, updateUser) and the
AuthForms dialog component (field validation and the two submit
handlers).  Asynchronous network calls are embedded by passing the
outcome of the awaited call (`Except JsError data`) as an explicit
argument; React state, localStorage and toast notifications are
explicit components of the returned result, together with an ordered
trace of the side effects each operation performs.
-/

namespace Auth

/-- A user record: identifier, username, email (further profile fields are
opaque to this layer; only `username` is ever read by it). -/
structure User where
  id : Nat
  username : String
  email : String
deriving DecidableEq, Repr

/-- A toast notification: title, description, and whether the
`variant: "destructive"` flag was passed (failure styling). -/
structure Toast where
  title : String
  description : String
  destructive : Bool
deriving DecidableEq, Repr

/-- The React state owned by AuthProvider: `user` (null/undefined are both
`none`) and the `isLoading` flag. -/
structure AuthState where
  user : Option User
  isLoading : Bool
deriving DecidableEq, Repr

/-- AuthProvider's initial state: `useState<User | null>(null)` and
`useState(true)` for loading. -/
def initialAuthState : AuthState :=
  { user := none, isLoading := true }

/-- localStorage as used by this layer: the `token` key and the `user` key
(`none` means the key is absent). -/
structure Storage where
  token : Option String
  userJson : Option String
deriving DecidableEq, Repr

/-- A JavaScript error value as observed by the catch blocks: its `message`
and the optional `response.data.error` / `response.data.message` fields
read by the submit handlers. -/
structure JsError where
  message : String
  respError : Option String
  respMessage : Option String
deriving DecidableEq, Repr

/-- The body of a login response (`res.data`): the `token` and `user`
fields, each possibly absent. -/
structure LoginData where
  token : Option String
  user : Option User
deriving DecidableEq, Repr

/-- The body of a register response (`res.data`): the `user` field,
possibly absent. -/
structure RegisterData where
  user : Option User
deriving DecidableEq, Repr

/-- One observable side effect, in the order the code performs it:
a `localStorage.setItem`, a `setUser`, or a toast call. -/
inductive Event where
  | setItem (key : String) (value : String)
  | setUserEv (u : Option User)
  | toastEv (t : Toast)
deriving DecidableEq, Repr

/-- The complete observable outcome of one AuthContext operation:
the final React state, the final localStorage, the toasts fired, the
network requests issued, the console log lines, the ordered effect
trace, and the error the returned promise rejects with (`none` when it
resolves). -/
structure OpResult where
  state : AuthState
  storage : Storage
  toasts : List Toast
  requests : List String
  logs : List String
  trace : List Event
  thrown : Option JsError
deriving DecidableEq, Repr

/-- JavaScript truthiness of the `res.data.token` field: absent (undefined)
and the empty string are falsy. -/
def tokenTruthy : Option String → Bool
  | none => false
  | some t => t ≠ ""

/-- `e.message || fallback`: the message unless it is empty. -/
def messageOr (e : JsError) (fallback : String) : String :=
  if e.message = "" then fallback else e.message

/-- `opt || fallback` on an optional string field: the value unless it is
absent or empty. -/
def jsOrElse (s : Option String) (fallback : String) : String :=
  match s with
  | none => fallback
  | some v => if v = "" then fallback else v

/-- The message of the TypeError raised by reading `.username` off an
absent (`undefined`) user object. -/
def typeErrorMsg : String := "Cannot read properties of undefined"

/-- JSON.stringify of a User, as written under the `user` storage key. -/
def serializeUser (u : User) : String :=
  "\x7b\"id\":" ++ toString u.id ++ ",\"username\":\"" ++ u.username ++
    "\",\"email\":\"" ++ u.email ++ "\"\x7d"

def loginEndpoint : String := "http://localhost:5000/api/auth/login"

def registerEndpoint : String := "http://localhost:5000/api/auth/register"

/-- The bootstrap session check run once by the AuthProvider mount effect:
`mockApiService.getCurrentUser()` awaited; on success the user is adopted,
on failure the error is only logged; `isLoading` becomes false either way,
no toast fires and nothing is rethrown. -/
def checkAuth (net : Except JsError User) (st : AuthState) (sto : Storage) : OpResult :=
  match net with
  | Except.ok u =>
      { state := { user := some u, isLoading := false }
        storage := sto
        toasts := []
        requests := ["mockApiService.getCurrentUser"]
        logs := []
        trace := [Event.setUserEv (some u)]
        thrown := none }
  | Except.error e =>
      { state := { st with isLoading := false }
        storage := sto
        toasts := []
        requests := ["mockApiService.getCurrentUser"]
        logs := ["Auth check failed: " ++ e.message]
        trace := []
        thrown := none }

/-- The AuthContext `login` operation.  The axios POST outcome is the
`net` argument.  On a response without a truthy token an Error is thrown
and caught locally; on a truthy token the token is stored, then the user
field is adopted via setUser, then the welcome toast reads
`res.data.user.username` (raising a TypeError when the user field is
absent).  Every failure fires a destructive toast and is rethrown;
`isLoading` is reset in the finally block on all paths. -/
def login (net : Except JsError LoginData) (st : AuthState) (sto : Storage) : OpResult :=
  match net with
  | Except.error e =>
      { state := { st with isLoading := false }
        storage := sto
        toasts := [⟨"Login failed", messageOr e "An error occurred during login", true⟩]
        requests := [loginEndpoint]
        logs := []
        trace := [Event.toastEv ⟨"Login failed", messageOr e "An error occurred during login", true⟩]
        thrown := some e }
  | Except.ok d =>
      if tokenTruthy d.token then
        match d.user with
        | some u =>
            { state := { user := some u, isLoading := false }
              storage := { sto with token := d.token }
              toasts := [⟨"Welcome back!", "Logged in as " ++ u.username, false⟩]
              requests := [loginEndpoint]
              logs := []
              trace := [Event.setItem "token" (d.token.getD ""),
                        Event.setUserEv (some u),
                        Event.toastEv ⟨"Welcome back!", "Logged in as " ++ u.username, false⟩]
              thrown := none }
        | none =>
            { state := { user := none, isLoading := false }
              storage := { sto with token := d.token }
              toasts := [⟨"Login failed", typeErrorMsg, true⟩]
              requests := [loginEndpoint]
              logs := []
              trace := [Event.setItem "token" (d.token.getD ""),
                        Event.setUserEv none,
                        Event.toastEv ⟨"Login failed", typeErrorMsg, true⟩]
              thrown := some ⟨typeErrorMsg, none, none⟩ }
      else
        { state := { st with isLoading := false }
          storage := sto
          toasts := [⟨"Login failed", "Login failed. No token.", true⟩]
          requests := [loginEndpoint]
          logs := ["No token received"]
          trace := [Event.toastEv ⟨"Login failed", "Login failed. No token.", true⟩]
          thrown := some ⟨"Login failed. No token.", none, none⟩ }

/-- The AuthContext `register` operation: POSTs the credentials, adopts
`res.data.user` on success and fires a success toast reading its
username (a TypeError when the field is absent); failures fire a
destructive toast and are rethrown; localStorage is never touched. -/
def register (net : Except JsError RegisterData) (st : AuthState) (sto : Storage) : OpResult :=
  match net with
  | Except.error e =>
      { state := { st with isLoading := false }
        storage := sto
        toasts := [⟨"Registration failed", messageOr e "An error occurred during registration", true⟩]
        requests := [registerEndpoint]
        logs := []
        trace := [Event.toastEv ⟨"Registration failed", messageOr e "An error occurred during registration", true⟩]
        thrown := some e }
  | Except.ok d =>
      match d.user with
      | some u =>
          { state := { user := some u, isLoading := false }
            storage := sto
            toasts := [⟨"Registration successful!", "Welcome, " ++ u.username ++ "!", false⟩]
            requests := [registerEndpoint]
            logs := []
            trace := [Event.setUserEv (some u),
                      Event.toastEv ⟨"Registration successful!", "Welcome, " ++ u.username ++ "!", false⟩]
            thrown := none }
      | none =>
          { state := { user := none, isLoading := false }
            storage := sto
            toasts := [⟨"Registration failed", typeErrorMsg, true⟩]
            requests := [registerEndpoint]
            logs := []
            trace := [Event.setUserEv none,
                      Event.toastEv ⟨"Registration failed", typeErrorMsg, true⟩]
            thrown := some ⟨typeErrorMsg, none, none⟩ }

/-- The AuthContext `logout` operation: awaits `mockApiService.logout()`;
on success clears the user and fires a toast, on failure fires a
destructive toast and changes nothing else; the error is swallowed
(never rethrown) and `isLoading` is not touched. -/
def logout (net : Except JsError Unit) (st : AuthState) (sto : Storage) : OpResult :=
  match net with
  | Except.ok _ =>
      { state := { st with user := none }
        storage := sto
        toasts := [⟨"Logged out", "You have been successfully logged out", false⟩]
        requests := ["mockApiService.logout"]
        logs := []
        trace := [Event.setUserEv none,
                  Event.toastEv ⟨"Logged out", "You have been successfully logged out", false⟩]
        thrown := none }
  | Except.error e =>
      { state := st
        storage := sto
        toasts := [⟨"Logout failed", messageOr e "An error occurred during logout", true⟩]
        requests := ["mockApiService.logout"]
        logs := []
        trace := [Event.toastEv ⟨"Logout failed", messageOr e "An error occurred during logout", true⟩]
        thrown := none }

/-- The AuthContext `updateUser` operation: `setUser(updatedUser)` followed
by `localStorage.setItem('user', JSON.stringify(updatedUser))`.  Purely
local: no network request, no toast, no thrown error. -/
def updateUser (u : User) (st : AuthState) (sto : Storage) : OpResult :=
  { state := { st with user := some u }
    storage := { sto with userJson := some (serializeUser u) }
    toasts := []
    requests := []
    logs := []
    trace := [Event.setUserEv (some u), Event.setItem "user" (serializeUser u)]
    thrown := none }

/-- The `isAuthenticated` value the provider exposes: `!!user`. -/
def isAuthenticated (st : AuthState) : Bool :=
  st.user.isSome

/-! ### The AuthForms dialog component -/

/-- A character matched by the regex class backslash-S: any non-whitespace. -/
def nonSpace (c : Char) : Bool :=
  !c.isWhitespace

/-- After the at-sign and at least one non-space character: scan for a dot
that is followed by a non-space character, crossing only non-space
characters (a dot is itself non-space, so it may also be crossed). -/
def afterB : List Char → Bool
  | [] => false
  | c :: rest =>
    if nonSpace c then
      if c = '.' then
        (match rest with
         | d :: _ => nonSpace d
         | [] => false) || afterB rest
      else afterB rest
    else false

/-- Right after the at-sign: at least one non-space character, then a
dot-then-non-space reachable across non-space characters. -/
def afterAt : List Char → Bool
  | [] => false
  | c :: rest => nonSpace c && afterB rest

/-- Scan for an at-sign preceded by a non-space character whose suffix
completes the pattern. -/
def scanAt : List Char → Bool
  | a :: b :: rest => (b = '@' && nonSpace a && afterAt rest) || scanAt (b :: rest)
  | _ => false

/-- The unanchored regex test used on the register email field: whether the
string contains a substring matching nonspace+, at-sign, nonspace+, dot,
nonspace+. -/
def emailRegexTest (s : String) : Bool :=
  scanAt s.data

/-- The login tab's field values. -/
structure LoginForm where
  email : String
  password : String
deriving DecidableEq, Repr

/-- The register tab's field values. -/
structure RegisterForm where
  username : String
  email : String
  password : String
  confirmPassword : String
deriving DecidableEq, Repr

/-- `validateLoginForm`: builds the error record key by key, in insertion
order, from the login tab's fields. -/
def validateLoginForm (f : LoginForm) : List (String × String) :=
  (if f.email = "" then [("email", "Email is required")] else []) ++
  (if f.password = "" then [("password", "Password is required")] else [])

/-- `validateRegisterForm`: builds the error record key by key, in
insertion order, from the register tab's fields. -/
def validateRegisterForm (f : RegisterForm) : List (String × String) :=
  (if f.username = "" then [("username", "Username is required")] else []) ++
  (if f.email = "" then [("email", "Email is required")]
   else if !emailRegexTest f.email then [("email", "Invalid email")] else []) ++
  (if f.password = "" then [("password", "Password is required")]
   else if f.password.length < 6 then [("password", "Password must be at least 6 characters")] else []) ++
  (if f.password ≠ f.confirmPassword then [("confirmPassword", "Passwords do not match")] else [])

/-- Which tab of the dialog is active. -/
inductive Tab where
  | loginTab
  | registerTab
deriving DecidableEq, Repr

/-- The React state of the AuthForms component: the active tab, the two
forms' field values, and the single shared error record and server-error
message. -/
structure DialogState where
  activeTab : Tab
  loginForm : LoginForm
  registerForm : RegisterForm
  formErrors : List (String × String)
  serverError : Option String
deriving DecidableEq, Repr

/-- The component's initial state for a given default tab: empty fields,
empty error record, no server error. -/
def initialDialogState (defaultTab : Tab) : DialogState :=
  { activeTab := defaultTab
    loginForm := { email := "", password := "" }
    registerForm := { username := "", email := "", password := "", confirmPassword := "" }
    formErrors := []
    serverError := none }

/-- Selecting a tab (the Tabs onValueChange callback or the switch link):
only `activeTab` changes. -/
def switchTab (t : Tab) (st : DialogState) : DialogState :=
  { st with activeTab := t }

/-- What a submit handler did besides updating component state: whether the
network-backed auth operation was invoked and whether the dialog closed. -/
structure SubmitEffects where
  networkCalled : Bool
  dialogClosed : Bool
deriving DecidableEq, Repr

/-- `handleLoginSubmit`: recompute the error record from the login fields,
clear the server error, and only when the record is empty await the
login operation (its outcome is the `out` argument); on success close the
dialog, on failure show `error.response.data.error` or a fallback. -/
def handleLoginSubmit (st : DialogState) (out : Except JsError Unit) :
    DialogState × SubmitEffects :=
  let errors := validateLoginForm st.loginForm
  let st1 : DialogState := { st with formErrors := errors, serverError := none }
  if errors = [] then
    match out with
    | Except.ok _ => (st1, ⟨true, true⟩)
    | Except.error e =>
        ({ st1 with serverError := some (jsOrElse e.respError "Login failed. Please try again.") },
         ⟨true, false⟩)
  else
    (st1, ⟨false, false⟩)

/-- `handleRegisterSubmit`: recompute the error record from the register
fields, clear the server error, and only when the record is empty await
the register operation (confirmPassword is not sent); on success close
the dialog, on failure show `error.response.data.message` or a
fallback. -/
def handleRegisterSubmit (st : DialogState) (out : Except JsError Unit) :
    DialogState × SubmitEffects :=
  let errors := validateRegisterForm st.registerForm
  let st1 : DialogState := { st with formErrors := errors, serverError := none }
  if errors = [] then
    match out with
    | Except.ok _ => (st1, ⟨true, true⟩)
    | Except.error e =>
        ({ st1 with serverError := some (jsOrElse e.respMessage "Registration failed. Try a different email.") },
         ⟨true, false⟩)
  else
    (st1, ⟨false, false⟩)

/-- The field keys the login validation rules flag, as the spec lists the
rules: email required, password required. -/
def loginViolatedKeys (f : LoginForm) : List String :=
  (if f.email = "" then ["email"] else []) ++
  (if f.password = "" then ["password"] else [])

/-- The field keys the register validation rules flag, as the spec lists
the rules: username required; email required and of the mail shape;
password required and at least 6 characters; confirmation equal to the
password. -/
def registerViolatedKeys (f : RegisterForm) : List String :=
  (if f.username = "" then ["username"] else []) ++
  (if f.email = "" ∨ emailRegexTest f.email = false then ["email"] else []) ++
  (if f.password = "" ∨ f.password.length < 6 then ["password"] else []) ++
  (if f.password ≠ f.confirmPassword then ["confirmPassword"] else [])

/-- A concrete dialog state in which the register tab is active and
displays validation errors, while the login tab holds a valid input. -/
def sharedErrorsDialogState : DialogState :=
  { activeTab := Tab.registerTab
    loginForm := { email := "a@b.c", password := "secret1" }
    registerForm := { username := "", email := "x", password := "abc", confirmPassword := "abc" }
    formErrors := [("username", "Username is required"), ("email", "Invalid email"),
                   ("password", "Password must be at least 6 characters")]
    serverError := none }

/-! ### Helper lemmas -/

theorem validateLoginForm_keys (f : LoginForm) :
    (validateLoginForm f).map Prod.fst = loginViolatedKeys f := by
  by_cases h1 : f.email = "" <;> by_cases h2 : f.password = "" <;>
    simp [validateLoginForm, loginViolatedKeys, h1, h2]

theorem validateRegisterForm_keys (f : RegisterForm) :
    (validateRegisterForm f).map Prod.fst = registerViolatedKeys f := by
  have c1 : ((if f.username = "" then [("username", "Username is required")] else []).map
      Prod.fst) = (if f.username = "" then ["username"] else []) := by
    split <;> rfl
  have c2 : ((if f.email = "" then [("email", "Email is required")]
      else if !emailRegexTest f.email then [("email", "Invalid email")] else []).map
      Prod.fst) = (if f.email = "" ∨ emailRegexTest f.email = false then ["email"] else []) := by
    by_cases h2 : f.email = ""
    · simp [h2]
    · by_cases h3 : emailRegexTest f.email = true <;> simp [h2, h3]
  have c3 : ((if f.password = "" then [("password", "Password is required")]
      else if f.password.length < 6 then
        [("password", "Password must be at least 6 characters")] else []).map
      Prod.fst) = (if f.password = "" ∨ f.password.length < 6 then ["password"] else []) := by
    by_cases h4 : f.password = ""
    · simp [h4]
    · by_cases h5 : f.password.length < 6 <;> simp [h4, h5]
  have c4 : ((if f.password ≠ f.confirmPassword then
      [("confirmPassword", "Passwords do not match")] else []).map
      Prod.fst) = (if f.password ≠ f.confirmPassword then ["confirmPassword"] else []) := by
    split <;> rfl
  simp only [validateRegisterForm, registerViolatedKeys, List.map_append, c1, c2, c3, c4]

/-! ### Claim theorems -/

/-- C1: a login call whose response lacks a token field is treated as a
failure even though the transport succeeded: no token is written to
durable storage (the storage is unchanged), a failure notification is
emitted, and the returned promise rejects so the caller observes the
failure; the user state is untouched. -/
theorem login_missing_token_is_failure (d : LoginData) (st : AuthState) (sto : Storage)
    (h : d.token = none) :
    (login (Except.ok d) st sto).storage = sto ∧
    (login (Except.ok d) st sto).toasts =
      [⟨"Login failed", "Login failed. No token.", true⟩] ∧
    (login (Except.ok d) st sto).thrown = some ⟨"Login failed. No token.", none, none⟩ ∧
    (login (Except.ok d) st sto).state.user = st.user := by
  simp [login, tokenTruthy, h]

/-- Witness for C1 at the concrete response body lacking a token. -/
theorem login_missing_token_is_failure_witness :
    (login (Except.ok ⟨none, some ⟨1, "ash", "a@b.com"⟩⟩) initialAuthState
      ⟨none, none⟩).storage = ⟨none, none⟩ ∧
    (login (Except.ok ⟨none, some ⟨1, "ash", "a@b.com"⟩⟩) initialAuthState
      ⟨none, none⟩).toasts = [⟨"Login failed", "Login failed. No token.", true⟩] ∧
    (login (Except.ok ⟨none, some ⟨1, "ash", "a@b.com"⟩⟩) initialAuthState
      ⟨none, none⟩).thrown = some ⟨"Login failed. No token.", none, none⟩ ∧
    (login (Except.ok ⟨none, some ⟨1, "ash", "a@b.com"⟩⟩) initialAuthState
      ⟨none, none⟩).state.user = initialAuthState.user :=
  login_missing_token_is_failure ⟨none, some ⟨1, "ash", "a@b.com"⟩⟩ initialAuthState
    ⟨none, none⟩ rfl

/-- C2: whenever a required login field (email or password) or a required
register field (username, email or password) is empty, the corresponding
submit handler does not invoke the network-backed auth operation, and
the recomputed error record carries exactly the keys of the violated
validation rules. -/
theorem empty_required_field_blocks_submit (st : DialogState) (out : Except JsError Unit) :
    ((st.loginForm.email = "" ∨ st.loginForm.password = "") →
      (handleLoginSubmit st out).2.networkCalled = false ∧
      ((handleLoginSubmit st out).1.formErrors).map Prod.fst =
        loginViolatedKeys st.loginForm) ∧
    ((st.registerForm.username = "" ∨ st.registerForm.email = "" ∨
        st.registerForm.password = "") →
      (handleRegisterSubmit st out).2.networkCalled = false ∧
      ((handleRegisterSubmit st out).1.formErrors).map Prod.fst =
        registerViolatedKeys st.registerForm) := by
  constructor
  · intro hl
    have hl' : validateLoginForm st.loginForm ≠ [] := by
      rcases hl with h | h <;> simp [validateLoginForm, h]
    simp [handleLoginSubmit, hl', validateLoginForm_keys]
  · intro hr
    have hr' : validateRegisterForm st.registerForm ≠ [] := by
      rcases hr with h | h | h <;> simp [validateRegisterForm, h]
    simp [handleRegisterSubmit, hr', validateRegisterForm_keys]

/-- Witness for C2 at the all-empty initial dialog state. -/
theorem empty_required_field_blocks_submit_witness :
    (handleLoginSubmit (initialDialogState Tab.loginTab) (Except.ok ())).2.networkCalled =
      false ∧
    ((handleLoginSubmit (initialDialogState Tab.loginTab) (Except.ok ())).1.formErrors).map
      Prod.fst = loginViolatedKeys (initialDialogState Tab.loginTab).loginForm ∧
    (handleRegisterSubmit (initialDialogState Tab.loginTab) (Except.ok ())).2.networkCalled =
      false ∧
    ((handleRegisterSubmit (initialDialogState Tab.loginTab) (Except.ok ())).1.formErrors).map
      Prod.fst = registerViolatedKeys (initialDialogState Tab.loginTab).registerForm := by
  have h := empty_required_field_blocks_submit (initialDialogState Tab.loginTab) (Except.ok ())
  exact ⟨(h.1 (Or.inl rfl)).1, (h.1 (Or.inl rfl)).2,
    (h.2 (Or.inl rfl)).1, (h.2 (Or.inl rfl)).2⟩

/-- C3: register validation flags an email error exactly when the email is
empty or fails the mail-shape regex test, a password error exactly when
the password is empty or shorter than 6 characters, and a
confirmPassword error exactly when the confirmation differs from the
password; with the other fields valid, password abcdef against
confirmation abcdeg produces an error on confirmPassword only. -/
theorem register_validation_rules :
    (∀ f : RegisterForm,
      (("email" ∈ (validateRegisterForm f).map Prod.fst) ↔
        (f.email = "" ∨ emailRegexTest f.email = false)) ∧
      (("password" ∈ (validateRegisterForm f).map Prod.fst) ↔
        (f.password = "" ∨ f.password.length < 6)) ∧
      (("confirmPassword" ∈ (validateRegisterForm f).map Prod.fst) ↔
        f.confirmPassword ≠ f.password)) ∧
    validateRegisterForm ⟨"ash", "a@b.com", "abcdef", "abcdeg"⟩ =
      [("confirmPassword", "Passwords do not match")] := by
  constructor
  · intro f
    rw [validateRegisterForm_keys]
    refine ⟨?_, ?_, ?_⟩ <;>
      by_cases h1 : f.username = "" <;> by_cases h2 : f.email = "" <;>
      by_cases h3 : emailRegexTest f.email = true <;> by_cases h4 : f.password = "" <;>
      by_cases h5 : f.password.length < 6 <;>
      by_cases h6 : f.password = f.confirmPassword <;>
      simp [registerViolatedKeys, h1, h2, h3, h4, h5, h6, ne_comm]
  · decide

/-- C4: the exposed isAuthenticated value is in every state exactly the
truth value of the user being non-null; it is derived, never stored
separately. -/
theorem isAuthenticated_iff_user (st : AuthState) :
    isAuthenticated st = true ↔ st.user ≠ none := by
  cases h : st.user <;> simp [isAuthenticated, h]

/-- C5: when the end-session call succeeds, logout clears the user and
fires a success notification; when it fails, logout fires a destructive
notification and leaves the whole state exactly unchanged. -/
theorem logout_success_clears_failure_preserves (st : AuthState) (sto : Storage)
    (e : JsError) :
    (logout (Except.ok ()) st sto).state.user = none ∧
    (logout (Except.ok ()) st sto).toasts =
      [⟨"Logged out", "You have been successfully logged out", false⟩] ∧
    (logout (Except.error e) st sto).state = st ∧
    (logout (Except.error e) st sto).toasts =
      [⟨"Logout failed", messageOr e "An error occurred during logout", true⟩] := by
  simp [logout]

/-- C6: updateUser unconditionally replaces the user state, writes the
serialized user under the storage key `user`, leaves the token key
alone and issues no network request; login never writes the `user` key
and on a truthy token writes exactly the `token` key; register never
writes either key. -/
theorem storage_write_discipline (u : User) (st : AuthState) (sto : Storage)
    (netL : Except JsError LoginData) (netR : Except JsError RegisterData)
    (d : LoginData) (h : tokenTruthy d.token = true) :
    (updateUser u st sto).state.user = some u ∧
    (updateUser u st sto).storage.userJson = some (serializeUser u) ∧
    (updateUser u st sto).storage.token = sto.token ∧
    (updateUser u st sto).requests = [] ∧
    (login netL st sto).storage.userJson = sto.userJson ∧
    (login (Except.ok d) st sto).storage.token = d.token ∧
    (register netR st sto).storage = sto := by
  refine ⟨rfl, rfl, rfl, rfl, ?_, ?_, ?_⟩
  · cases netL with
    | error e => rfl
    | ok dd =>
        rcases hdu : dd.user with _ | u2 <;>
          by_cases h2 : tokenTruthy dd.token <;> simp [login, hdu, h2]
  · rcases hdu : d.user with _ | u2 <;> simp [login, hdu, h]
  · cases netR with
    | error e => rfl
    | ok dd => rcases hdu : dd.user with _ | u2 <;> simp [register, hdu]

/-- Witness for C6 at concrete values with the token present. -/
theorem storage_write_discipline_witness :
    (updateUser ⟨1, "ash", "a@b.com"⟩ initialAuthState ⟨none, none⟩).state.user =
      some ⟨1, "ash", "a@b.com"⟩ ∧
    (updateUser ⟨1, "ash", "a@b.com"⟩ initialAuthState ⟨none, none⟩).storage.userJson =
      some (serializeUser ⟨1, "ash", "a@b.com"⟩) ∧
    (updateUser ⟨1, "ash", "a@b.com"⟩ initialAuthState ⟨none, none⟩).storage.token =
      (⟨none, none⟩ : Storage).token ∧
    (updateUser ⟨1, "ash", "a@b.com"⟩ initialAuthState ⟨none, none⟩).requests = [] ∧
    (login (Except.ok ⟨some "t1", some ⟨1, "ash", "a@b.com"⟩⟩) initialAuthState
      ⟨none, none⟩).storage.userJson = (⟨none, none⟩ : Storage).userJson ∧
    (login (Except.ok ⟨some "t1", some ⟨1, "ash", "a@b.com"⟩⟩) initialAuthState
      ⟨none, none⟩).storage.token = (⟨some "t1", some ⟨1, "ash", "a@b.com"⟩⟩ : LoginData).token ∧
    (register (Except.ok ⟨some ⟨1, "ash", "a@b.com"⟩⟩) initialAuthState
      ⟨none, none⟩).storage = ⟨none, none⟩ :=
  storage_write_discipline ⟨1, "ash", "a@b.com"⟩ initialAuthState ⟨none, none⟩
    (Except.ok ⟨some "t1", some ⟨1, "ash", "a@b.com"⟩⟩)
    (Except.ok ⟨some ⟨1, "ash", "a@b.com"⟩⟩)
    ⟨some "t1", some ⟨1, "ash", "a@b.com"⟩⟩ (by decide)

/-- C7 counterexample: the error record is one piece of state shared by
both tabs, so acting on the login tab does not leave the register tab's
errors intact.  In a state where the register tab displays a username
error, submitting the (valid) login tab replaces the whole record and
the username error disappears. -/
theorem shared_error_record_counterexample :
    List.lookup "username" sharedErrorsDialogState.formErrors =
      some "Username is required" ∧
    List.lookup "username"
      ((handleLoginSubmit sharedErrorsDialogState (Except.ok ())).1.formErrors) = none := by
  constructor <;> rfl

/-- C7 amended: switching tabs changes only the active tab, so neither
tab's field values nor the displayed error record nor the server error
is reset by a tab switch, and a submit never changes either tab's field
values; but the error record is a single shared state: a submit
recomputes it from the submitting tab's validator alone, replacing any
errors the other tab had displayed. -/
theorem tab_switch_preserves_but_submit_replaces_errors (t : Tab) (st : DialogState)
    (out : Except JsError Unit) :
    (switchTab t st).loginForm = st.loginForm ∧
    (switchTab t st).registerForm = st.registerForm ∧
    (switchTab t st).formErrors = st.formErrors ∧
    (switchTab t st).serverError = st.serverError ∧
    (handleLoginSubmit st out).1.loginForm = st.loginForm ∧
    (handleLoginSubmit st out).1.registerForm = st.registerForm ∧
    (handleRegisterSubmit st out).1.loginForm = st.loginForm ∧
    (handleRegisterSubmit st out).1.registerForm = st.registerForm ∧
    (handleLoginSubmit st out).1.formErrors = validateLoginForm st.loginForm ∧
    (handleRegisterSubmit st out).1.formErrors = validateRegisterForm st.registerForm := by
  refine ⟨rfl, rfl, rfl, rfl, ?_, ?_, ?_, ?_, ?_, ?_⟩ <;>
    cases out <;> simp [handleLoginSubmit, handleRegisterSubmit] <;> split <;> simp

/-- C8: the bootstrap session lookup run from the initial provider state
adopts the returned user on success; on failure the user stays unset and
the failure is only logged, with no notification and nothing rethrown;
in both cases isLoading ends up false. -/
theorem bootstrap_lookup_swallows_failure (u : User) (e : JsError) (sto : Storage) :
    (checkAuth (Except.ok u) initialAuthState sto).state = ⟨some u, false⟩ ∧
    (checkAuth (Except.ok u) initialAuthState sto).toasts = [] ∧
    (checkAuth (Except.ok u) initialAuthState sto).thrown = none ∧
    (checkAuth (Except.error e) initialAuthState sto).state = ⟨none, false⟩ ∧
    (checkAuth (Except.error e) initialAuthState sto).toasts = [] ∧
    (checkAuth (Except.error e) initialAuthState sto).thrown = none ∧
    (checkAuth (Except.error e) initialAuthState sto).logs =
      ["Auth check failed: " ++ e.message] := by
  refine ⟨rfl, rfl, rfl, rfl, rfl, rfl, rfl⟩

/-- C9: on a login response with a truthy token, the token is written to
storage strictly before the user field is adopted into state (the first
two trace events); hence when the user field is absent the token is
still persisted even though the operation then fails with a TypeError
and the promise rejects. -/
theorem token_persisted_before_user_adopted (d : LoginData) (st : AuthState)
    (sto : Storage) (t : String) (ht : d.token = some t) (hne : t ≠ "") :
    (login (Except.ok d) st sto).trace.take 2 =
      [Event.setItem "token" t, Event.setUserEv d.user] ∧
    (d.user = none →
      (login (Except.ok d) st sto).storage.token = some t ∧
      (login (Except.ok d) st sto).thrown = some ⟨typeErrorMsg, none, none⟩) := by
  have htr : tokenTruthy (some t) = true := by simp [tokenTruthy, hne]
  rcases hdu : d.user with _ | u <;> simp [login, ht, hdu, htr]

/-- Witness for C9 at a concrete response carrying a token but no user. -/
theorem token_persisted_before_user_adopted_witness :
    (login (Except.ok ⟨some "t1", none⟩) initialAuthState ⟨none, none⟩).trace.take 2 =
      [Event.setItem "token" "t1", Event.setUserEv none] ∧
    (login (Except.ok ⟨some "t1", none⟩) initialAuthState ⟨none, none⟩).storage.token =
      some "t1" ∧
    (login (Except.ok ⟨some "t1", none⟩) initialAuthState ⟨none, none⟩).thrown =
      some ⟨typeErrorMsg, none, none⟩ := by
  have h := token_persisted_before_user_adopted ⟨some "t1", none⟩ initialAuthState
    ⟨none, none⟩ "t1" rfl (by decide)
  exact ⟨h.1, (h.2 rfl).1, (h.2 rfl).2⟩

/-- C10: a login call that fails before the token check passes (the
request rejected, or the response token is falsy) and a register call
whose request rejects all leave the user state exactly as it was before
the call. -/
theorem failure_paths_preserve_user (st : AuthState) (sto : Storage) (e : JsError)
    (d : LoginData) (h : tokenTruthy d.token = false) :
    (login (Except.error e) st sto).state.user = st.user ∧
    (login (Except.ok d) st sto).state.user = st.user ∧
    (register (Except.error e) st sto).state.user = st.user := by
  refine ⟨rfl, ?_, rfl⟩
  simp [login, h]

/-- Witness for C10 at a rejected request and a tokenless response. -/
theorem failure_paths_preserve_user_witness :
    (login (Except.error ⟨"Network Error", none, none⟩) ⟨some ⟨1, "ash", "a@b.com"⟩, false⟩
      ⟨none, none⟩).state.user = (⟨some ⟨1, "ash", "a@b.com"⟩, false⟩ : AuthState).user ∧
    (login (Except.ok ⟨none, none⟩) ⟨some ⟨1, "ash", "a@b.com"⟩, false⟩
      ⟨none, none⟩).state.user = (⟨some ⟨1, "ash", "a@b.com"⟩, false⟩ : AuthState).user ∧
    (register (Except.error ⟨"Network Error", none, none⟩) ⟨some ⟨1, "ash", "a@b.com"⟩, false⟩
      ⟨none, none⟩).state.user = (⟨some ⟨1, "ash", "a@b.com"⟩, false⟩ : AuthState).user :=
  failure_paths_preserve_user ⟨some ⟨1, "ash", "a@b.com"⟩, false⟩ ⟨none, none⟩
    ⟨"Network Error", none, none⟩ ⟨none, none⟩ rfl

end Auth
